import Mathlib

/-
Verification development for the command-stream receiver core
(runtime/command_stream/command_stream_receiver.cpp).

The Lean definitions below are a shallow embedding of that file.  Code of
collaborating classes that is not part of the sources at hand
(GraphicsAllocation accessors, InternalAllocationStorage, LinearStream,
IndirectHeap) is modelled from the specification document; each such
definition carries a doc comment saying so.  Machine integers are modelled
as Nat (sizes, task counts) and Int (the signed microsecond timeout);
no arithmetic here approaches 2^32, so overflow is not modelled.
A single OS context is modelled: every call in the embedded file goes
through the one osContext of the receiver, so the per-context maps of the
real allocation collapse to single fields.
-/

namespace CsrModel

/-- Allocation type tags used by the embedded call sites
(GraphicsAllocation::AllocationType in the source). -/
inductive AllocationType where
  | commandBuffer
  | linearStream
  | internalHeap
  | undecided
deriving DecidableEq

/-- Modelled from the spec: the Allocation data model, "opaque handle
{base address/handle, size, type tag, per-context residency flag,
per-context last-referenced task count}" plus the evictable flag used by
the two-step eviction protocol.  `residencyTaskCount = none` encodes the
cleared residency flag (the allocation is not resident in the context);
`some w` encodes resident with watermark `w`.  `id` stands for the base
address/handle. -/
structure GraphicsAllocation where
  id : Nat
  size : Nat
  taskCount : Nat
  residencyTaskCount : Option Nat
  evictable : Bool
  allocType : AllocationType
deriving DecidableEq

/-- Modelled from the spec: the residency flag query (GraphicsAllocation::
isResident is not under src/); an allocation is resident exactly when it
carries a residency watermark. -/
def GraphicsAllocation.isResident (a : GraphicsAllocation) : Bool :=
  a.residencyTaskCount.isSome

/-- Modelled from the spec: GraphicsAllocation::isResidencyTaskCountBelow
is not under src/.  The guard compares the per-context residency watermark
against a task count; a non-resident allocation (no watermark) counts as
below, so that registration always happens on first-time residency. -/
def GraphicsAllocation.isResidencyTaskCountBelow (t : Nat) (a : GraphicsAllocation) : Bool :=
  match a.residencyTaskCount with
  | none => true
  | some w => w < t

/-- Modelled from the spec: GraphicsAllocation::updateResidencyTaskCount is
not under src/; per the spec, makeResident "always raises the per-context
watermark to the maximum of its previous value and the new task count",
and the allocation becomes resident. -/
def GraphicsAllocation.updateResidencyTaskCount (t : Nat) (a : GraphicsAllocation) : GraphicsAllocation :=
  let w :=
    match a.residencyTaskCount with
    | none => t
    | some w0 => max w0 t
  { a with residencyTaskCount := some w }

/-- Modelled from the spec: GraphicsAllocation::updateTaskCount is not
under src/; it records the per-context last-referenced task count. -/
def GraphicsAllocation.updateTaskCount (t : Nat) (a : GraphicsAllocation) : GraphicsAllocation :=
  { a with taskCount := t }

/-- Modelled from the spec: GraphicsAllocation::releaseResidencyInOsContext
is not under src/; it clears the per-context residency flag. -/
def GraphicsAllocation.releaseResidencyInOsContext (a : GraphicsAllocation) : GraphicsAllocation :=
  { a with residencyTaskCount := none }

/-- Modelled from the spec: GraphicsAllocation::peekEvictable. -/
def GraphicsAllocation.peekEvictable (a : GraphicsAllocation) : Bool :=
  a.evictable

/-- Modelled from the spec: GraphicsAllocation::setEvictable. -/
def GraphicsAllocation.setEvictable (b : Bool) (a : GraphicsAllocation) : GraphicsAllocation :=
  { a with evictable := b }

/-- Engine state of the CommandStreamReceiver restricted to the fields the
embedded functions touch: the context task counter, the memory-usage
counter, the residency container and the eviction container (lists of
allocation handles), the debug surface and the completion tag allocation
with the value stored at the tag address. -/
structure CsrState where
  taskCount : Nat
  totalMemoryUsed : Nat
  residencyAllocations : List Nat
  evictionAllocations : List Nat
  debugSurface : Option Nat
  tagAllocation : Option Nat
  tagValue : Option Nat
deriving DecidableEq

/-- Embeds CommandStreamReceiver::makeResident (command_stream_receiver.cpp,
lines 64-74).  The C++ mutates the allocation and the receiver through
references; here both updated values are returned.  Source order is kept:
guard on isResidencyTaskCountBelow(taskCount+1); inside the guard push the
handle into the residency container, update the last-referenced task count,
and bump totalMemoryUsed when not yet resident; finally (unconditionally)
update the residency watermark. -/
def makeResident (a : GraphicsAllocation) (csr : CsrState) : GraphicsAllocation × CsrState :=
  let submissionTaskCount := csr.taskCount + 1
  let step :=
    if a.isResidencyTaskCountBelow submissionTaskCount then
      let csr1 := { csr with residencyAllocations := csr.residencyAllocations ++ [a.id] }
      let a1 := a.updateTaskCount submissionTaskCount
      let csr2 :=
        if ¬ a1.isResident then
          { csr1 with totalMemoryUsed := csr1.totalMemoryUsed + a1.size }
        else csr1
      (a1, csr2)
    else (a, csr)
  (step.1.updateResidencyTaskCount submissionTaskCount, step.2)

/-- Embeds CommandStreamReceiver::makeNonResident (command_stream_receiver.cpp,
lines 80-91).  makeCoherent is a pure hardware coherence side effect with no
bearing on the modelled state, so it is a no-op here.  If resident: either
append to the eviction container (already evictable) or set the evictable
flag (first time); finally (unconditionally) release residency. -/
def makeNonResident (a : GraphicsAllocation) (csr : CsrState) : GraphicsAllocation × CsrState :=
  let step :=
    if a.isResident then
      if a.peekEvictable then
        (a, { csr with evictionAllocations := csr.evictionAllocations ++ [a.id] })
      else
        (a.setEvictable true, csr)
    else (a, csr)
  (step.1.releaseResidencyInOsContext, step.2)

/-- Modelled from the spec: a Lifecycle List Entry of the Allocation
Lifecycle Store, "{allocation, free-after task count, list kind}"; the list
kind is implicit since only the reusable list is embedded here. -/
structure ReuseEntry where
  alloc : GraphicsAllocation
  freeAfter : Nat
deriving DecidableEq

/-- Modelled from the spec: InternalAllocationStorage::obtainReusableAllocation
is not under src/.  Per the spec it "scans the reusable list for the first
matching-type entry with capacity >= minSize whose free-after count has
already completed (checked against the live fence); removes and returns it,
or signals none available".  The live fence value is passed in as `fence`. -/
def obtainReusableAllocation (l : List ReuseEntry) (fence : Nat) (minSize : Nat)
    (ty : AllocationType) : Option (ReuseEntry × List ReuseEntry) :=
  match l with
  | [] => none
  | e :: rest =>
    if e.alloc.allocType = ty ∧ minSize ≤ e.alloc.size ∧ e.freeAfter ≤ fence then
      some (e, rest)
    else
      (obtainReusableAllocation rest fence minSize ty).map (fun p => (p.1, e :: p.2))

/-- Modelled from the spec: InternalAllocationStorage::storeAllocation for
the reusable list is not under src/; a reusable entry is appended with
free-after equal to "the allocation's recorded last-submission count". -/
def storeReusable (l : List ReuseEntry) (a : GraphicsAllocation) : List ReuseEntry :=
  l ++ [{ alloc := a, freeAfter := a.taskCount }]

/-- A fresh allocation produced for the three-submission residency
scenario: never yet resident, never referenced. -/
def scenarioAllocation : GraphicsAllocation :=
  { id := 42, size := 4096, taskCount := 0, residencyTaskCount := none,
    evictable := true, allocType := .undecided }

/-- An engine state whose task counter is `t`, used by concrete scenarios. -/
def scenarioState (t : Nat) : CsrState :=
  { taskCount := t, totalMemoryUsed := 0, residencyAllocations := [],
    evictionAllocations := [], debugSurface := none, tagAllocation := none,
    tagValue := none }

/-- The three-submission scenario: makeResident is called three times on
the same allocation while the submissions in flight are assigned task
counts 5, 6, 7, i.e. the context counter reads 4, 5, 6 at the calls; the
result is the final residency watermark. -/
def threeCallWatermark : Option Nat :=
  let p1 := makeResident scenarioAllocation (scenarioState 4)
  let p2 := makeResident p1.1 { p1.2 with taskCount := 5 }
  let p3 := makeResident p2.1 { p2.2 with taskCount := 6 }
  p3.1.residencyTaskCount

/-- The same three calls made literally while the context task counter
reads 5, 6, 7 (so the assigned submission counts are 6, 7, 8). -/
def threeCallWatermarkLiteral : Option Nat :=
  let p1 := makeResident scenarioAllocation (scenarioState 5)
  let p2 := makeResident p1.1 { p1.2 with taskCount := 6 }
  let p3 := makeResident p2.1 { p2.2 with taskCount := 7 }
  p3.1.residencyTaskCount

/-- Size constants of the embedding.  cacheLineSize, csOverfetchSize,
pageSize and pageSize64k are the MemoryConstants/CSRequirements values
used by the embedded file; defaultHeapSize and defaultSshSize are
CommandStreamReceiver members whose defining header is not under src/, so
all six are carried as parameters. -/
structure Config where
  cacheLineSize : Nat
  csOverfetchSize : Nat
  pageSize : Nat
  pageSize64k : Nat
  defaultHeapSize : Nat
  defaultSshSize : Nat
deriving DecidableEq

/-- Embeds alignUp: rounds x up to the next multiple of a. -/
def alignUp (x a : Nat) : Nat := ((x + a - 1) / a) * a

/-- Outcome marker for a path on which the C++ dereferences a null
allocation pointer. -/
inductive NullDeref where
  | nullDeref
deriving DecidableEq

/-- Outcome marker for UNRECOVERABLE_IF: an unrecoverable fatal check. -/
inductive FatalError where
  | unrecoverable
deriving DecidableEq

/-- Modelled from the spec: LinearStream is not under src/; per the data
model it is a linear cursor {backing allocation, capacity, used offset};
cpuBase is the CPU address of the backing (none encodes null). -/
structure LinearStream where
  cpuBase : Option Nat
  maxSize : Nat
  sizeUsed : Nat
  graphicsAllocation : Option GraphicsAllocation
deriving DecidableEq

/-- Modelled from the spec: remaining capacity of the linear cursor. -/
def LinearStream.getAvailableSpace (cs : LinearStream) : Nat :=
  cs.maxSize - cs.sizeUsed

/-- Modelled from the spec: LinearStream::replaceBuffer installs a new
backing of the given capacity and resets the used offset; the previous
base address becomes invalid. -/
def LinearStream.replaceBuffer (buffer : Option Nat) (size : Nat)
    (cs : LinearStream) : LinearStream :=
  { cs with cpuBase := buffer, maxSize := size, sizeUsed := 0 }

/-- Modelled from the spec: LinearStream::replaceGraphicsAllocation swaps
the backing allocation handle. -/
def LinearStream.replaceGraphicsAllocation (g : Option GraphicsAllocation)
    (cs : LinearStream) : LinearStream :=
  { cs with graphicsAllocation := g }

/-- Embeds CommandStreamReceiver::getCS (command_stream_receiver.cpp, lines
124-149).  The internal allocation storage is the explicit reusable list
plus the live fence; the memory manager's possible fresh allocation is the
`fresh` argument (none encodes allocation failure).  The result carries
the stream, the updated reusable list, and the number of backing swaps
performed (0 or 1).  When the reuse lookup misses and `fresh` is none, the
C++ reaches `allocation->getUnderlyingBuffer()` at line 144 with a null
`allocation`; that path is the NullDeref outcome. -/
def getCS (cfg : Config) (storage : List ReuseEntry) (fence : Nat)
    (commandStream : LinearStream) (minRequiredSize : Nat)
    (fresh : Option GraphicsAllocation) :
    Except NullDeref (LinearStream × List ReuseEntry × Nat) :=
  if commandStream.getAvailableSpace < minRequiredSize then
    let minRequiredSize1 := minRequiredSize + cfg.cacheLineSize + cfg.csOverfetchSize
    let minRequiredSize2 := alignUp minRequiredSize1 cfg.pageSize64k
    let obtained := obtainReusableAllocation storage fence minRequiredSize2 .commandBuffer
    let allocation :=
      match obtained with
      | some (e, _) => some e.alloc
      | none => fresh
    let storage1 :=
      match obtained with
      | some (_, rest) => rest
      | none => storage
    let storage2 :=
      if commandStream.cpuBase.isSome then
        match commandStream.graphicsAllocation with
        | some g => storeReusable storage1 g
        | none => storage1
      else storage1
    match allocation with
    | none => .error .nullDeref
    | some alloc =>
      let cs1 := commandStream.replaceBuffer (some alloc.id)
          (minRequiredSize2 - cfg.cacheLineSize - cfg.csOverfetchSize)
      let cs2 := cs1.replaceGraphicsAllocation (some alloc)
      .ok (cs2, storage2, 1)
  else
    .ok (commandStream, storage, 0)

/-- Heap type tags of IndirectHeap::Type used by the embedded functions. -/
inductive HeapType where
  | dynamicState
  | generalState
  | indirectObject
  | surfaceState
deriving DecidableEq

/-- Modelled from the spec: IndirectHeap is not under src/; it is the same
linear cursor shape as LinearStream, over an auxiliary heap backing. -/
structure IndirectHeap where
  graphicsAllocation : Option GraphicsAllocation
  maxSize : Nat
  sizeUsed : Nat
deriving DecidableEq

/-- Modelled from the spec: remaining capacity of the heap cursor. -/
def IndirectHeap.getAvailableSpace (h : IndirectHeap) : Nat :=
  h.maxSize - h.sizeUsed

/-- Embeds CommandStreamReceiver::allocateHeapMemory (lines 269-310).
reservedSize is 0 and the AddPatchInfoCommentsForAUBDump debug flag is
off, as in the source defaults.  The final size starts from the per-type
default, is aligned up to page granularity of max(default, requested),
a reuse hit enlarges it to the recycled backing's underlying size, and
for the surface-state heap it is then overridden to defaultSshSize -
pageSize unconditionally (the DEBUG_BREAK_IF at line 298 is diagnostic
only and compiles away in release builds).  The heap cursor is installed
over the new backing with the final size as capacity and a reset used
offset (replaceBuffer resets the offset; the fresh-construction branch
applies overrideMaxSize the same way).  A null heapMemory would be
dereferenced at line 303 or in the IndirectHeap constructor; that path is
the NullDeref outcome.  The result carries the heap, the updated reusable
list and the single backing swap performed. -/
def allocateHeapMemory (cfg : Config) (heapType : HeapType)
    (minRequiredSize : Nat) (storage : List ReuseEntry) (fence : Nat)
    (fresh : Option GraphicsAllocation) :
    Except NullDeref (IndirectHeap × List ReuseEntry × Nat) :=
  let reservedSize := 0
  let finalHeapSize0 :=
    if heapType = .surfaceState then cfg.defaultSshSize else cfg.defaultHeapSize
  let requireInternalHeap := heapType = .indirectObject
  let minRequiredSize1 := minRequiredSize + reservedSize
  let finalHeapSize1 := alignUp (max finalHeapSize0 minRequiredSize1) cfg.pageSize
  let allocationType :=
    if requireInternalHeap then AllocationType.internalHeap
    else AllocationType.linearStream
  let obtained := obtainReusableAllocation storage fence finalHeapSize1 allocationType
  let heapMemory :=
    match obtained with
    | some (e, _) => some e.alloc
    | none => fresh
  let storage1 :=
    match obtained with
    | some (_, rest) => rest
    | none => storage
  let finalHeapSize2 :=
    match obtained with
    | some (e, _) => max e.alloc.size finalHeapSize1
    | none => finalHeapSize1
  let finalHeapSize3 :=
    if heapType = .surfaceState then cfg.defaultSshSize - cfg.pageSize
    else finalHeapSize2
  match heapMemory with
  | none => .error .nullDeref
  | some hm =>
    .ok ({ graphicsAllocation := some hm, maxSize := finalHeapSize3, sizeUsed := 0 },
      storage1, 1)

/-- Embeds CommandStreamReceiver::getIndirectHeap (lines 248-267) for one
heap slot: when the slot holds a heap with a backing whose available space
is below the request, the backing is retired to the reusable list and
allocateHeapMemory installs a replacement; when the slot is empty or has
no backing, allocateHeapMemory runs directly; otherwise the heap is
returned unchanged with zero swaps. -/
def getIndirectHeap (cfg : Config) (heapType : HeapType)
    (minRequiredSize : Nat) (heap : Option IndirectHeap)
    (storage : List ReuseEntry) (fence : Nat)
    (fresh : Option GraphicsAllocation) :
    Except NullDeref (IndirectHeap × List ReuseEntry × Nat) :=
  match heap with
  | none => allocateHeapMemory cfg heapType minRequiredSize storage fence fresh
  | some h =>
    match h.graphicsAllocation with
    | none => allocateHeapMemory cfg heapType minRequiredSize storage fence fresh
    | some hm =>
      if h.getAvailableSpace < minRequiredSize then
        allocateHeapMemory cfg heapType minRequiredSize
          (storeReusable storage hm) fence fresh
      else
        .ok (h, storage, 0)

/-- Embeds CommandStreamReceiver::allocateDebugSurface (lines 242-246):
UNRECOVERABLE_IF fires when the debug surface is already set; otherwise
the memory manager's result (the `fresh` handle) becomes the debug surface
and is returned. -/
def allocateDebugSurface (st : CsrState) (fresh : Option Nat) :
    Except FatalError (CsrState × Option Nat) :=
  if st.debugSurface.isSome then .error .unrecoverable
  else .ok ({ st with debugSurface := fresh }, fresh)

/-- Embeds CommandStreamReceiver::setTagAllocation (lines 204-207): stores
the allocation handle and repoints the tag address at its buffer (none
clears it); the content of a freshly pointed-to buffer is unspecified
until written, so the modelled tag value resets. -/
def setTagAllocation (st : CsrState) (allocation : Option Nat) : CsrState :=
  { st with tagAllocation := allocation, tagValue := none }

/-- Modelled from the spec: the initial completion-fence value written by
initializeTagAllocation (the initialHardwareTag member is declared in a
header that is not under src/; its exact value is irrelevant here). -/
def initialHardwareTag : Nat := 0

/-- Embeds CommandStreamReceiver::initializeTagAllocation (lines 329-339):
asks the memory manager for a page for the completion tag; on failure
returns false; on success installs the page via setTagAllocation, writes
the initial hardware tag through the tag address, and returns true.  The
EnableNullHardware debug flag is off.  The source performs no
already-initialized check on this path, so no fatal outcome exists and an
existing tag allocation is silently replaced. -/
def initializeTagAllocation (st : CsrState) (fresh : Option Nat) :
    Except FatalError (CsrState × Bool) :=
  match fresh with
  | none => .ok (st, false)
  | some tagAlloc =>
    let st1 := setTagAllocation st (some tagAlloc)
    .ok ({ st1 with tagValue := some initialHardwareTag }, true)

/-- Elapsed-time value the polling loop of waitForCompletionWithTimeout
holds before its k-th condition check: 0 initially; when the timeout is
enabled each iteration stores the measured elapsed time (the `e` trace),
otherwise it stays 0. -/
def timeDiffAt (e : Nat → Int) (enableTimeout : Bool) : Nat → Int
  | 0 => 0
  | k + 1 => if enableTimeout then e k else timeDiffAt e enableTimeout k

/-- Embeds the polling loop of waitForCompletionWithTimeout (lines
185-195) with explicit fuel.  `r` is the sequence of values read at the
tag address, one read per while-condition check plus the final read of the
post-loop fence test at line 195; `e` is the elapsed-microseconds
measurement of each iteration.  The result is none when the fuel runs out
before the loop exits, otherwise the boolean of the final fence test
together with the index of the read on which the loop exited. -/
def waitPoll (r : Nat → Nat) (e : Nat → Int) (enableTimeout : Bool)
    (timeoutMicroseconds : Int) (taskCountToWait : Nat) :
    Nat → Nat → Int → Option (Bool × Nat)
  | 0, _, _ => none
  | fuel + 1, i, timeDiff =>
    if r i < taskCountToWait ∧ timeDiff ≤ timeoutMicroseconds then
      waitPoll r e enableTimeout timeoutMicroseconds taskCountToWait fuel (i + 1)
        (if enableTimeout then e i else timeDiff)
    else
      some (decide (taskCountToWait ≤ r (i + 1)), i)

/-- Embeds CommandStreamReceiver::waitForCompletionWithTimeout (lines
176-202).  flushBatchedSubmissions is virtual and not under src/; the
first boolean of the result records whether it was invoked, which the
source does exactly when the latest flushed task count is behind the
target.  The remaining components are the returned completion boolean and
the exit read index of the polling loop; the gtpin notification hook has
no bearing on the modelled state. -/
def waitForCompletionWithTimeout (r : Nat → Nat) (e : Nat → Int)
    (enableTimeout : Bool) (timeoutMicroseconds : Int)
    (latestFlushedTaskCount taskCountToWait fuel : Nat) :
    Option (Bool × Bool × Nat) :=
  let flushed := decide (latestFlushedTaskCount < taskCountToWait)
  (waitPoll r e enableTimeout timeoutMicroseconds taskCountToWait fuel 0 0).map
    (fun p => (flushed, p.1, p.2))

/-- A configuration with 64-byte cache lines, 1 KiB overfetch margin,
4 KiB pages, 64 KiB large pages, and 64 KiB default heap and
surface-state sizes, matching the claim scenarios that take the default
surface-state size to be 64 KiB. -/
def cfg64 : Config :=
  { cacheLineSize := 64, csOverfetchSize := 1024, pageSize := 4096,
    pageSize64k := 65536, defaultHeapSize := 65536, defaultSshSize := 65536 }

/-- A command-buffer backing allocation used by concrete scenarios. -/
def csBackingAlloc : GraphicsAllocation :=
  { id := 11, size := 65536, taskCount := 4, residencyTaskCount := none,
    evictable := true, allocType := .commandBuffer }

/-- A command stream with ample remaining space. -/
def csBig : LinearStream :=
  { cpuBase := some 11, maxSize := 4096, sizeUsed := 0,
    graphicsAllocation := some csBackingAlloc }

/-- An empty command stream (null base, no space), as right after
construction. -/
def csLow : LinearStream :=
  { cpuBase := none, maxSize := 0, sizeUsed := 0, graphicsAllocation := none }

/-- A fresh allocation the memory manager would return for command-buffer
growth. -/
def csFreshAlloc : GraphicsAllocation :=
  { id := 12, size := 65536, taskCount := 0, residencyTaskCount := none,
    evictable := true, allocType := .commandBuffer }

/-- A surface-state heap backing used by the concrete heap scenarios. -/
def sshBackingAlloc : GraphicsAllocation :=
  { id := 21, size := 4096, taskCount := 2, residencyTaskCount := none,
    evictable := true, allocType := .linearStream }

/-- A full surface-state heap (no remaining space) over sshBackingAlloc. -/
def sshHeapLow : IndirectHeap :=
  { graphicsAllocation := some sshBackingAlloc, maxSize := 4096, sizeUsed := 4096 }

/-- A fresh allocation for the 100 KiB surface-state request. -/
def sshFreshAlloc : GraphicsAllocation :=
  { id := 22, size := 102400, taskCount := 0, residencyTaskCount := none,
    evictable := true, allocType := .linearStream }

/-- A second surface-state backing for the C2 concrete run. -/
def sshBackingAlloc2 : GraphicsAllocation :=
  { id := 31, size := 1024, taskCount := 3, residencyTaskCount := none,
    evictable := true, allocType := .linearStream }

/-- A full surface-state heap over sshBackingAlloc2. -/
def sshHeapLow2 : IndirectHeap :=
  { graphicsAllocation := some sshBackingAlloc2, maxSize := 1024, sizeUsed := 1024 }

/-- A fresh allocation for the 64 KiB surface-state request. -/
def sshFreshAlloc2 : GraphicsAllocation :=
  { id := 32, size := 65536, taskCount := 0, residencyTaskCount := none,
    evictable := true, allocType := .linearStream }

/-- The heap the 100 KiB surface-state growth run produces. -/
def sshSwapResult : IndirectHeap :=
  { graphicsAllocation := some sshFreshAlloc, maxSize := 61440, sizeUsed := 0 }

/-- The heap the 64 KiB surface-state growth run produces. -/
def sshSwapResult2 : IndirectHeap :=
  { graphicsAllocation := some sshFreshAlloc2, maxSize := 61440, sizeUsed := 0 }

/-- A state whose completion tag allocation is already set. -/
def stWithTag : CsrState :=
  { scenarioState 0 with tagAllocation := some 1 }

/-- A state with both the debug surface and the tag allocation set. -/
def stWithDebugAndTag : CsrState :=
  { scenarioState 0 with debugSurface := some 5, tagAllocation := some 1 }

/-- Unfolding of the allocation returned by makeResident: its residency
watermark is raised to the maximum of the previous watermark and the
submission task count (taskCount + 1), and first-time residency starts the
watermark at the submission task count. -/
theorem makeResident_fst_residencyTaskCount (a : GraphicsAllocation) (csr : CsrState) :
    (makeResident a csr).1.residencyTaskCount =
      some (match a.residencyTaskCount with
            | none => csr.taskCount + 1
            | some w => max w (csr.taskCount + 1)) := by
  unfold makeResident
  rcases a with ⟨i, s, t, r, ev, ty⟩
  rcases r with _ | w
  · simp [GraphicsAllocation.isResidencyTaskCountBelow,
      GraphicsAllocation.updateResidencyTaskCount, GraphicsAllocation.updateTaskCount,
      GraphicsAllocation.isResident]
  · simp [GraphicsAllocation.isResidencyTaskCountBelow,
      GraphicsAllocation.updateResidencyTaskCount, GraphicsAllocation.updateTaskCount,
      GraphicsAllocation.isResident]
    split_ifs <;> simp

/-- Claim C3 (counterexample): the claim states both that makeResident
raises the watermark to max(previous, current task count + 1) and that
three calls made while the context's task counts read 5, 6, 7 leave the
watermark at 7; on the embedded code those three calls use submission
counts 6, 7, 8 and leave the watermark at 8, not 7. -/
theorem C3_counterexample :
    threeCallWatermarkLiteral = some 8 ∧ threeCallWatermarkLiteral ≠ some 7 := by
  decide

/-- Claim C3 (amended): each makeResident call sets the per-context
residency watermark to the maximum of its previous value and the current
task count + 1, so the watermark never decreases; three makeResident calls
whose assigned submission task counts are 5, 6, 7 in order (context
counter reading 4, 5, 6) leave the watermark equal to 7. -/
theorem C3_watermark_monotonic_max (a : GraphicsAllocation) (csr : CsrState) (w : Nat)
    (h : a.residencyTaskCount = some w) :
    ((makeResident a csr).1.residencyTaskCount = some (max w (csr.taskCount + 1))
      ∧ (∀ v, (makeResident a csr).1.residencyTaskCount = some v → w ≤ v))
    ∧ threeCallWatermark = some 7 := by
  refine ⟨⟨?_, ?_⟩, by decide⟩
  · rw [makeResident_fst_residencyTaskCount, h]
  · intro v hv
    rw [makeResident_fst_residencyTaskCount, h] at hv
    simp only [Option.some.injEq] at hv
    omega

/-- Witness for C3: the amended theorem evaluated on a concrete resident
allocation with watermark 2 at context task count 4. -/
theorem C3_witness :
    ((makeResident { scenarioAllocation with residencyTaskCount := some 2 }
        (scenarioState 4)).1.residencyTaskCount = some (max 2 (4 + 1))
      ∧ (∀ v, (makeResident { scenarioAllocation with residencyTaskCount := some 2 }
          (scenarioState 4)).1.residencyTaskCount = some v → 2 ≤ v))
    ∧ threeCallWatermark = some 7 :=
  C3_watermark_monotonic_max
    { scenarioAllocation with residencyTaskCount := some 2 } (scenarioState 4) 2 rfl

/-- Claim C4: makeResident increases totalMemoryUsed by the allocation's
underlying buffer size exactly when the allocation was not resident in the
context before the call, and leaves it unchanged when already resident. -/
theorem C4_totalMemoryUsed_first_residency (a : GraphicsAllocation) (csr : CsrState) :
    (makeResident a csr).2.totalMemoryUsed =
      csr.totalMemoryUsed + (if a.isResident then 0 else a.size) := by
  unfold makeResident
  rcases a with ⟨i, s, t, r, ev, ty⟩
  rcases r with _ | w
  · simp [GraphicsAllocation.isResidencyTaskCountBelow,
      GraphicsAllocation.updateResidencyTaskCount, GraphicsAllocation.updateTaskCount,
      GraphicsAllocation.isResident]
  · simp [GraphicsAllocation.isResidencyTaskCountBelow,
      GraphicsAllocation.updateResidencyTaskCount, GraphicsAllocation.updateTaskCount,
      GraphicsAllocation.isResident]
    split_ifs <;> simp

/-- Releasing residency on an allocation that is already non-resident does
not change it. -/
theorem releaseResidency_of_nonResident (a : GraphicsAllocation)
    (h : a.residencyTaskCount = none) : a.releaseResidencyInOsContext = a := by
  rcases a with ⟨i, s, t, r, ev, ty⟩
  simp only [GraphicsAllocation.releaseResidencyInOsContext]
  simp_all

/-- The allocation returned by makeNonResident is never resident. -/
theorem makeNonResident_fst_not_resident (a : GraphicsAllocation) (csr : CsrState) :
    (makeNonResident a csr).1.residencyTaskCount = none := by
  unfold makeNonResident
  split_ifs <;> rfl

/-- Claim C5: a second, consecutive makeNonResident call on the allocation
just made non-resident is a no-op: it appends nothing to the eviction set
and changes neither the allocation's residency/evictability state nor the
engine state. -/
theorem C5_makeNonResident_second_call_noop (a : GraphicsAllocation) (csr : CsrState) :
    makeNonResident (makeNonResident a csr).1 (makeNonResident a csr).2 =
      makeNonResident a csr := by
  have h1 := makeNonResident_fst_not_resident a csr
  conv_lhs => rw [makeNonResident]
  rw [if_neg (by simp [GraphicsAllocation.isResident, h1])]
  simp [releaseResidency_of_nonResident _ h1]

/-- Claim C10: with the context task counter fixed, a repeated makeResident
call on the same allocation is the identity (the guard watermark < taskCount
+ 1 fails after the first call), so the handle is appended to the residency
container at most once per call chain; moreover a single call appends the
handle at most once. -/
theorem C10_makeResident_repeat_identity (a : GraphicsAllocation) (csr : CsrState) :
    makeResident (makeResident a csr).1 (makeResident a csr).2 = makeResident a csr
    ∧ ((makeResident a csr).2.residencyAllocations = csr.residencyAllocations
        ∨ (makeResident a csr).2.residencyAllocations
            = csr.residencyAllocations ++ [a.id]) := by
  constructor
  · have hfst := makeResident_fst_residencyTaskCount a csr
    have htc : (makeResident a csr).2.taskCount = csr.taskCount := by
      simp only [makeResident]
      split_ifs <;> simp [GraphicsAllocation.updateTaskCount, GraphicsAllocation.isResident]
    have hguard : (makeResident a csr).1.isResidencyTaskCountBelow
        ((makeResident a csr).2.taskCount + 1) = false := by
      rw [htc]
      simp only [GraphicsAllocation.isResidencyTaskCountBelow, hfst]
      rcases ha : a.residencyTaskCount with _ | w <;> simp [ha]
    conv_lhs => rw [makeResident]
    rw [if_neg (by simp [hguard])]
    have hkeep : (makeResident a csr).1.updateResidencyTaskCount
        ((makeResident a csr).2.taskCount + 1) = (makeResident a csr).1 := by
      rcases hb : (makeResident a csr).1 with ⟨i, s, t, r, ev, ty⟩
      have hr : r = (makeResident a csr).1.residencyTaskCount := by rw [hb]
      rw [makeResident_fst_residencyTaskCount] at hr
      simp only [GraphicsAllocation.updateResidencyTaskCount]
      rw [htc]
      rcases ha : a.residencyTaskCount with _ | w <;> rw [ha] at hr <;> simp_all
    rw [hkeep]
  · simp only [makeResident]
    split_ifs <;> simp

/-- Claim C1: any entry handed out by obtainReusableAllocation satisfies
fence >= its recorded free-after count; equivalently an entry stored with
free-after = T is never returned while the fence is below T.  Both getCS
and allocateHeapMemory obtain their recycled backings through this
function, passing the live fence. -/
theorem C1_obtainReusable_fence_ge_freeAfter (l : List ReuseEntry)
    (fence minSize : Nat) (ty : AllocationType) (e : ReuseEntry)
    (rest : List ReuseEntry)
    (h : obtainReusableAllocation l fence minSize ty = some (e, rest)) :
    e.freeAfter ≤ fence := by
  induction l generalizing rest with
  | nil => simp [obtainReusableAllocation] at h
  | cons hd tl ih =>
    rw [obtainReusableAllocation] at h
    split_ifs at h with hc
    · simp only [Option.some.injEq, Prod.mk.injEq] at h
      rw [← h.1]
      exact hc.2.2
    · rcases Option.map_eq_some'.mp h with ⟨p, hp, hpe⟩
      cases hpe
      exact ih p.2 hp

/-- A concrete reusable entry used to witness C1. -/
def witnessEntry : ReuseEntry :=
  { alloc := { id := 7, size := 200, taskCount := 3, residencyTaskCount := none,
               evictable := true, allocType := .commandBuffer },
    freeAfter := 3 }

/-- Witness for C1: the lookup on the singleton list [witnessEntry] with
fence 5 returns witnessEntry, whose free-after count 3 is at most 5. -/
theorem C1_witness : witnessEntry.freeAfter ≤ 5 :=
  C1_obtainReusable_fence_ge_freeAfter [witnessEntry] 5 100 .commandBuffer
    witnessEntry [] (by decide)

/-- Rounding up never shrinks: x is at most alignUp x a for positive a. -/
theorem le_alignUp (x a : Nat) (ha : 0 < a) : x ≤ alignUp x a := by
  unfold alignUp
  rw [Nat.mul_comm]
  have h1 := Nat.div_add_mod (x + a - 1) a
  have h2 : (x + a - 1) % a < a := Nat.mod_lt _ ha
  generalize hgen : a * ((x + a - 1) / a) = t at h1
  generalize hm : (x + a - 1) % a = m at h1 h2
  omega


/-- Claim C2 (counterexample): growing a full surface-state heap with a
request of 64 KiB performs the single backing swap, but the post-swap
available space is the fixed cap 61440 = 64 KiB - 4 KiB, below the
requested size, contradicting the claim's post-swap guarantee. -/
theorem C2_counterexample :
    getIndirectHeap cfg64 .surfaceState 65536 (some sshHeapLow2) [] 0 (some sshFreshAlloc2)
      = Except.ok (sshSwapResult2, [{ alloc := sshBackingAlloc2, freeAfter := 3 }], 1)
    ∧ sshSwapResult2.getAvailableSpace < 65536 := by
  exact ⟨rfl, by decide⟩

/-- Claim C2 (amended): for getCS and getIndirectHeap, a request within the
current backing's available space performs no backing swap and returns the
backing unchanged; a request above the available space performs exactly one
swap and the new backing's available space covers the request - for the
command buffer and the non-surface-state heaps unconditionally, and for
the surface-state heap provided the request is within its fixed cap of
defaultSshSize minus one page (post-swap space of that heap always equals
the cap). -/
theorem C2_growth_discipline (cfg : Config) (storage : List ReuseEntry)
    (fence : Nat) (cs : LinearStream) (h : IndirectHeap)
    (hm f : GraphicsAllocation) (heapType : HeapType) (minRequiredSize : Nat)
    (hp64 : 0 < cfg.pageSize64k) (hp : 0 < cfg.pageSize) :
    (minRequiredSize ≤ cs.getAvailableSpace →
      getCS cfg storage fence cs minRequiredSize (some f) = .ok (cs, storage, 0))
    ∧ (cs.getAvailableSpace < minRequiredSize →
      (getCS cfg storage fence cs minRequiredSize (some f)).map
          (fun p => (decide (minRequiredSize ≤ p.1.getAvailableSpace), p.2.2))
        = .ok (true, 1))
    ∧ (h.graphicsAllocation = some hm → minRequiredSize ≤ h.getAvailableSpace →
      getIndirectHeap cfg heapType minRequiredSize (some h) storage fence (some f)
        = .ok (h, storage, 0))
    ∧ (h.graphicsAllocation = some hm → h.getAvailableSpace < minRequiredSize →
      heapType ≠ .surfaceState →
      (getIndirectHeap cfg heapType minRequiredSize (some h) storage fence (some f)).map
          (fun p => (decide (minRequiredSize ≤ p.1.getAvailableSpace), p.2.2))
        = .ok (true, 1))
    ∧ (h.graphicsAllocation = some hm → h.getAvailableSpace < minRequiredSize →
      minRequiredSize ≤ cfg.defaultSshSize - cfg.pageSize →
      (getIndirectHeap cfg .surfaceState minRequiredSize (some h) storage fence (some f)).map
          (fun p => (decide (minRequiredSize ≤ p.1.getAvailableSpace), p.2.2))
        = .ok (true, 1)) := by
  refine ⟨?_, ?_, ?_, ?_, ?_⟩
  · intro hle
    simp [getCS, Nat.not_lt.mpr hle]
  · intro hlt
    have hA := le_alignUp (minRequiredSize + cfg.cacheLineSize + cfg.csOverfetchSize)
      cfg.pageSize64k hp64
    simp only [getCS, if_pos hlt]
    rcases hobt : obtainReusableAllocation storage fence
        (alignUp (minRequiredSize + cfg.cacheLineSize + cfg.csOverfetchSize)
          cfg.pageSize64k) AllocationType.commandBuffer with _ | pr
    · simp [hobt, Except.map, LinearStream.replaceBuffer,
        LinearStream.replaceGraphicsAllocation, LinearStream.getAvailableSpace]
      omega
    · simp [hobt, Except.map, LinearStream.replaceBuffer,
        LinearStream.replaceGraphicsAllocation, LinearStream.getAvailableSpace]
      omega
  · intro hgm hle
    simp [getIndirectHeap, hgm, Nat.not_lt.mpr hle]
  · intro hgm hlt hne
    have hD : minRequiredSize ≤ alignUp (max cfg.defaultHeapSize minRequiredSize) cfg.pageSize :=
      le_trans (Nat.le_max_right _ _) (le_alignUp _ _ hp)
    simp only [getIndirectHeap, hgm, if_pos hlt, allocateHeapMemory]
    rcases hobt : obtainReusableAllocation (storeReusable storage hm) fence
        (alignUp (max cfg.defaultHeapSize minRequiredSize) cfg.pageSize)
        (if heapType = HeapType.indirectObject then AllocationType.internalHeap
          else AllocationType.linearStream) with _ | pr
    · simp [hobt, hne, Except.map, IndirectHeap.getAvailableSpace]
      omega
    · have hE : alignUp (max cfg.defaultHeapSize minRequiredSize) cfg.pageSize
          ≤ max pr.1.alloc.size (alignUp (max cfg.defaultHeapSize minRequiredSize) cfg.pageSize) :=
        Nat.le_max_right _ _
      simp [hobt, hne, Except.map, IndirectHeap.getAvailableSpace]
      omega
  · intro hgm hlt hcap
    simp only [getIndirectHeap, hgm, if_pos hlt, allocateHeapMemory]
    rcases hobt : obtainReusableAllocation (storeReusable storage hm) fence
        (alignUp (max cfg.defaultSshSize minRequiredSize) cfg.pageSize)
        AllocationType.linearStream with _ | pr
    · simp [hobt, Except.map, IndirectHeap.getAvailableSpace]
      omega
    · simp [hobt, Except.map, IndirectHeap.getAvailableSpace]
      omega

/-- Witness for C2: on a stream with 4096 bytes available, a 100-byte
request returns the stream unchanged with zero swaps, and on the empty
stream the same request performs one swap after which the space covers
the request. -/
theorem C2_witness :
    getCS cfg64 [] 0 csBig 100 (some csFreshAlloc) = .ok (csBig, [], 0)
    ∧ (getCS cfg64 [] 0 csLow 100 (some csFreshAlloc)).map
        (fun p => (decide (100 ≤ p.1.getAvailableSpace), p.2.2)) = .ok (true, 1) :=
  ⟨(C2_growth_discipline cfg64 [] 0 csBig sshHeapLow sshBackingAlloc csFreshAlloc
      .dynamicState 100 (by decide) (by decide)).1 (by decide),
   (C2_growth_discipline cfg64 [] 0 csLow sshHeapLow sshBackingAlloc csFreshAlloc
      .dynamicState 100 (by decide) (by decide)).2.1 (by decide)⟩

/-- Claim C6 (counterexample): with the default surface-state size of
64 KiB (the claim's fixed maximum), a 100 KiB request on a full
surface-state heap performs the single swap but yields capacity
61440 bytes = 64 KiB minus one page, which is not at least 100 KiB. -/
theorem C6_counterexample :
    getIndirectHeap cfg64 .surfaceState 102400 (some sshHeapLow) [] 0 (some sshFreshAlloc)
      = Except.ok (sshSwapResult, [{ alloc := sshBackingAlloc, freeAfter := 2 }], 1)
    ∧ ¬ (102400 ≤ sshSwapResult.maxSize) := by
  exact ⟨rfl, by decide⟩

/-- Claim C6 (amended): after any growth of the surface-state heap the
capacity (and the available space) equals the fixed maximum
defaultSshSize minus one page exactly, whatever the requested size, and a
request exceeding the current space performs exactly one backing swap; the
resulting capacity therefore covers the request only when the request is
at most the cap, which a 100 KiB request with a 64 KiB default
surface-state size is not. -/
theorem C6_ssh_capacity_cap (cfg : Config) (storage : List ReuseEntry)
    (fence : Nat) (h : IndirectHeap) (hm f : GraphicsAllocation)
    (minRequiredSize : Nat) (hgm : h.graphicsAllocation = some hm)
    (hlt : h.getAvailableSpace < minRequiredSize) :
    (getIndirectHeap cfg .surfaceState minRequiredSize (some h) storage fence (some f)).map
        (fun p => (p.1.maxSize, p.1.getAvailableSpace, p.2.2))
      = .ok (cfg.defaultSshSize - cfg.pageSize, cfg.defaultSshSize - cfg.pageSize, 1) := by
  simp only [getIndirectHeap, hgm, if_pos hlt, allocateHeapMemory]
  rcases hobt : obtainReusableAllocation (storeReusable storage hm) fence
      (alignUp (max cfg.defaultSshSize minRequiredSize) cfg.pageSize)
      AllocationType.linearStream with _ | pr
  · simp [hobt, Except.map, IndirectHeap.getAvailableSpace]
  · simp [hobt, Except.map, IndirectHeap.getAvailableSpace]

/-- Witness for C6: the 100 KiB request on the full 64 KiB-default
surface-state heap swaps once and lands at capacity and available space
61440 = 65536 - 4096. -/
theorem C6_witness :
    (getIndirectHeap cfg64 .surfaceState 102400 (some sshHeapLow) [] 0
        (some sshFreshAlloc)).map
        (fun p => (p.1.maxSize, p.1.getAvailableSpace, p.2.2))
      = .ok (cfg64.defaultSshSize - cfg64.pageSize, cfg64.defaultSshSize - cfg64.pageSize, 1) :=
  C6_ssh_capacity_cap cfg64 [] 0 sshHeapLow sshBackingAlloc sshFreshAlloc 102400
    rfl (by decide)

/-- Claim C8 (counterexample): when the reuse lookup misses and the fresh
allocation fails, getCS does not report an allocation-failed outcome: the
source reaches `allocation->getUnderlyingBuffer()` with a null pointer,
the NullDeref outcome of the model. -/
theorem C8_counterexample :
    getCS cfg64 [] 0 csLow 100 none = .error .nullDeref := by
  rfl

/-- Claim C8 (amended): initializeTagAllocation reports allocation failure
upward by returning false, without retry and without touching the missing
allocation; getCS's growth path, however, performs no null check after the
fallback and dereferences the missing allocation when both the reuse-pool
lookup and the fresh allocation fail. -/
theorem C8_allocation_failure_paths :
    (∀ st, initializeTagAllocation st none = .ok (st, false))
    ∧ (∀ cfg storage fence cs minRequiredSize,
        cs.getAvailableSpace < minRequiredSize →
        obtainReusableAllocation storage fence
          (alignUp (minRequiredSize + cfg.cacheLineSize + cfg.csOverfetchSize)
            cfg.pageSize64k) AllocationType.commandBuffer = none →
        getCS cfg storage fence cs minRequiredSize none = .error .nullDeref) := by
  constructor
  · intro st
    rfl
  · intro cfg storage fence cs minRequiredSize hlt hmiss
    simp [getCS, if_pos hlt, hmiss]

/-- Witness for C8: on the empty stream with an empty reuse list and a
failing allocator, a 1-byte request hits the null dereference, while
initializeTagAllocation under the same failing allocator returns false. -/
theorem C8_witness :
    initializeTagAllocation (scenarioState 0) none = .ok (scenarioState 0, false)
    ∧ getCS cfg64 [] 0 csLow 1 none = .error .nullDeref :=
  ⟨C8_allocation_failure_paths.1 (scenarioState 0),
   C8_allocation_failure_paths.2 cfg64 [] 0 csLow 1 (by decide) rfl⟩

/-- Claim C9 (counterexample): re-running initializeTagAllocation on a
state whose completion tag allocation is already set hits no fatal check;
it succeeds and silently replaces the tag allocation. -/
theorem C9_counterexample :
    initializeTagAllocation stWithTag (some 2)
      = .ok ({ stWithTag with tagAllocation := some 2, tagValue := some initialHardwareTag }, true)
    ∧ stWithTag.tagAllocation ≠ none := by
  exact ⟨rfl, by decide⟩

/-- Claim C9 (amended): re-initializing the debug surface while it is set
hits the UNRECOVERABLE_IF fatal check; the completion tag allocation has
no such guard: initializeTagAllocation called with the tag already set
succeeds and silently replaces it. -/
theorem C9_singleton_reinit (st : CsrState) (fresh : Option Nat) (t : Nat)
    (hd : st.debugSurface.isSome = true) :
    allocateDebugSurface st fresh = .error .unrecoverable
    ∧ initializeTagAllocation st (some t)
      = .ok ({ st with tagAllocation := some t, tagValue := some initialHardwareTag }, true) := by
  constructor
  · simp [allocateDebugSurface, hd]
  · rfl

/-- Witness for C9: a state holding debug surface 5 and tag allocation 1
fatals on allocateDebugSurface and silently swaps its tag to 9. -/
theorem C9_witness :
    allocateDebugSurface stWithDebugAndTag (some 6) = .error .unrecoverable
    ∧ initializeTagAllocation stWithDebugAndTag (some 9)
      = .ok ({ stWithDebugAndTag with tagAllocation := some 9, tagValue := some initialHardwareTag }, true) :=
  C9_singleton_reinit stWithDebugAndTag (some 6) 9 (by decide)

/-- With the timeout disabled the loop's elapsed-time reading stays 0. -/
theorem timeDiffAt_disabled (e : Nat → Int) (k : Nat) :
    timeDiffAt e false k = 0 := by
  induction k with
  | zero => rfl
  | succ n ih => simp [timeDiffAt, ih]

/-- Exit analysis of the polling loop: whenever the loop exits within its
fuel at read index k, the while condition failed there (the fence reading
reached the target or the elapsed time passed the timeout), and the
returned boolean is the post-loop fence test at read k + 1. -/
theorem waitPoll_exit (r : Nat → Nat) (e : Nat → Int) (enableTimeout : Bool)
    (timeout : Int) (target : Nat) :
    ∀ fuel i td b k, td = timeDiffAt e enableTimeout i →
      waitPoll r e enableTimeout timeout target fuel i td = some (b, k) →
      i ≤ k ∧ ¬(r k < target ∧ timeDiffAt e enableTimeout k ≤ timeout)
        ∧ b = decide (target ≤ r (k + 1)) := by
  intro fuel
  induction fuel with
  | zero =>
    intro i td b k htd hrun
    simp [waitPoll] at hrun
  | succ n ih =>
    intro i td b k htd hrun
    rw [waitPoll] at hrun
    by_cases hc : r i < target ∧ td ≤ timeout
    · rw [if_pos hc] at hrun
      have htd1 : (if enableTimeout then e i else td)
          = timeDiffAt e enableTimeout (i + 1) := by
        cases enableTimeout
        · simpa [timeDiffAt] using htd
        · simp [timeDiffAt]
      have hrec := ih (i + 1) _ b k htd1 hrun
      exact ⟨by omega, hrec.2.1, hrec.2.2⟩
    · rw [if_neg hc] at hrun
      simp only [Option.some.injEq, Prod.mk.injEq] at hrun
      obtain ⟨hb, hk⟩ := hrun
      subst hk
      refine ⟨Nat.le_refl i, ?_, hb.symm⟩
      rw [← htd]
      exact hc

/-- Claim C7 (counterexample): with the timeout disabled but a negative
timeout value, the loop guard 0 <= timeoutMicroseconds fails at once, so
the call stops polling immediately and returns false even though the fence
trace is constantly 0, below the target 1: with enableTimeout false the
code does not always poll until the fence reaches the target. -/
theorem C7_counterexample :
    waitForCompletionWithTimeout (fun _ => 0) (fun _ => 0) false (-1) 0 1 5
      = some (true, false, 0) := by
  rfl

/-- Claim C7 (amended): waitForCompletionWithTimeout flushes batched
submissions exactly when the last flushed task count is behind the
target; the polling loop exits only once the fence reading reaches the
target or the elapsed time passes the (possibly negative) timeout value;
with the timeout disabled and a nonnegative timeout value the loop runs
until the fence reaches the target and the call returns true; and the
returned boolean is true exactly when the fence value observed by the
post-loop test is at least the target.  The fence trace is monotone, as
hardware writes a monotonically increasing counter. -/
theorem C7_wait_characterization (r : Nat → Nat) (e : Nat → Int)
    (enableTimeout : Bool) (timeout : Int)
    (latestFlushedTaskCount target fuel : Nat) (flushed res : Bool) (k : Nat)
    (hmono : ∀ i j, i ≤ j → r i ≤ r j)
    (hrun : waitForCompletionWithTimeout r e enableTimeout timeout
        latestFlushedTaskCount target fuel = some (flushed, res, k)) :
    flushed = decide (latestFlushedTaskCount < target)
    ∧ res = decide (target ≤ r (k + 1))
    ∧ (target ≤ r k ∨ timeout < timeDiffAt e enableTimeout k)
    ∧ (enableTimeout = false → 0 ≤ timeout → target ≤ r k ∧ res = true) := by
  simp only [waitForCompletionWithTimeout] at hrun
  rcases hopt : waitPoll r e enableTimeout timeout target fuel 0 0 with _ | pr
  · rw [hopt] at hrun
    simp at hrun
  · rw [hopt] at hrun
    obtain ⟨b, k0⟩ := pr
    simp only [Option.map_some', Option.some.injEq, Prod.mk.injEq] at hrun
    obtain ⟨hfl, hres, hk⟩ := hrun
    subst hk
    subst hres
    subst hfl
    have hx := waitPoll_exit r e enableTimeout timeout target fuel 0 0 b k0 rfl hopt
    rcases hx with ⟨-, hcond, hb⟩
    have hexit : target ≤ r k0 ∨ timeout < timeDiffAt e enableTimeout k0 := by
      rcases not_and_or.mp hcond with hx | hx
      · exact Or.inl (Nat.not_lt.mp hx)
      · exact Or.inr (lt_of_not_le hx)
    refine ⟨rfl, hb, hexit, ?_⟩
    intro het hto
    subst het
    have hzero := timeDiffAt_disabled e k0
    have hr : target ≤ r k0 := by
      rcases hexit with hx | hx
      · exact hx
      · rw [hzero] at hx
        omega
    refine ⟨hr, ?_⟩
    rw [hb]
    simp only [decide_eq_true_eq]
    exact le_trans hr (hmono k0 (k0 + 1) (Nat.le_succ k0))

/-- Witness for C7: the fence trace r i = i with target 2, timeout
disabled at value 0, flushes (0 < 2), exits at read 2, and returns true
from the post-loop test at read 3. -/
theorem C7_witness :
    true = decide ((0:Nat) < 2)
    ∧ true = decide ((2:Nat) ≤ 2 + 1)
    ∧ ((2:Nat) ≤ 2 ∨ (0:Int) < timeDiffAt (fun _ => 0) false 2)
    ∧ (false = false → (0:Int) ≤ 0 → (2:Nat) ≤ 2 ∧ true = true) :=
  C7_wait_characterization (fun i => i) (fun _ => 0) false 0 0 2 10 true true 2
    (fun _ _ hij => hij) rfl

end CsrModel
